import Mathlib

/-!
Verification development for the MuseumHub repository.

This file gives a shallow embedding, in Lean 4, of the parts of the
repository that the checked properties talk about:

* `src/models.py` — the `ConversationSession`, `ConversationMessage`,
  `AuthenticationToken` and `Booking` rows, with `datetime` values
  modelled as integers (an abstract tick count; for `cleanup_old_sessions`
  the unit is one day, matching `timedelta(days=...)`), JSON context
  dictionaries modelled as association lists (the `json.dumps`/`json.loads`
  round trip is the identity on them), and the SQLAlchemy tables modelled
  as Lean lists (the store).  Channels are identified by their unique
  `name` string, which stands for the `channels.id` foreign key.
* `src/channels/base.py` — `create_session` and `get_session`.
* `src/channels/website.py` / `src/channels/instagram.py` — `authenticate`.
* `src/session_manager.py` — `get_or_create_session`, `transfer_session`,
  `get_conversation_history`, `cleanup_old_sessions`.
* `src/app.py` — the step-by-step booking branches of the `/chatbot`
  POST handler (`select_date`, `select_time`, `select_visitors`,
  `confirm_and_pay`), together with the module constants `TIME_SLOTS`,
  `SLOT_CAPACITY` and `TICKET_PRICE`.

Python truthiness (`if not token`, `x or y or 1`, ...) is modelled
explicitly: `None` is `Option.none`, and the empty string and the
number `0` are falsy.  The human-readable response texts produced by the
chatbot are not reproduced character by character; instead each `return
jsonify(...)` site is identified by a constant `kind` tag, and the
dynamic data interpolated into the text (the remaining-spots figure, the
step marker, the buttons) is carried in dedicated fields of `ChatOut`.
-/

/-! ## Python truthiness helpers -/

/-- Truthiness of an optional string: `None` and `""` are falsy. -/
def strTruthy : Option String → Bool
  | none => false
  | some s => s ≠ ""

/-- Python `x or y` on optional strings: the first truthy operand,
otherwise the value of the second operand (which may itself be falsy). -/
def pyOrStr (a b : Option String) : Option String :=
  if strTruthy a then a else b

/-! ## `src/models.py` — ConversationSession -/

/-- A row of `conversation_sessions` (`src/models.py:94`).  `datetime`
columns are integer ticks; the JSON `context` column is an association
list, with `[]` standing for both SQL `NULL` and the empty dict (both are
falsy in Python, and `get_context` returns the empty dict for both). -/
structure ConversationSession where
  id : Nat
  session_id : String
  user_id : Option Nat
  channel_id : String
  channel_user_id : Option String
  status : String
  context : List (String × String)
  updated_at : Int
  last_activity : Int
deriving DecidableEq

/-- Model of `ConversationSession.get_context` (`src/models.py:116`): parses the
JSON column; `NULL`/empty gives the empty dict.  Under the association
list model this is the identity. -/
def ConversationSession.get_context (s : ConversationSession) : List (String × String) :=
  s.context

/-- The session table plus the autoincrement counter for primary keys. -/
structure SessionStore where
  sessions : List ConversationSession
  next_id : Nat
deriving DecidableEq

/-- The channel names `SessionManager._get_channel` accepts
(`src/session_manager.py:14`); any other name raises `ValueError`. -/
def known_channel (name : String) : Bool :=
  name = "website" || name = "instagram" || name = "voice"

/-! ## `src/channels/base.py` — create_session / get_session -/

/-- Model of `BaseChannel.create_session` (`src/channels/base.py:30`): inserts a
fresh row with `status='active'` and the given context.  The random
`uuid.uuid4()` session identifier is modelled by a deterministic fresh
string derived from the primary key; only its uniqueness matters.
`set_context` is called when the context is non-empty, which stamps
`updated_at`/`last_activity` — both are the creation instant anyway. -/
def create_session (st : SessionStore) (ch : String) (user_id : Option Nat)
    (channel_user_id : Option String) (context : List (String × String))
    (now : Int) : ConversationSession × SessionStore :=
  let s : ConversationSession :=
    { id := st.next_id
      session_id := "uuid-" ++ toString st.next_id
      user_id := user_id
      channel_id := ch
      channel_user_id := channel_user_id
      status := "active"
      context := context
      updated_at := now
      last_activity := now }
  (s, { sessions := st.sessions ++ [s], next_id := st.next_id + 1 })

/-- Insertion step of the model of `order_by(last_activity.desc())`. -/
def insert_by_activity (s : ConversationSession) :
    List ConversationSession → List ConversationSession
  | [] => [s]
  | t :: ts =>
      if t.last_activity ≤ s.last_activity then s :: t :: ts
      else t :: insert_by_activity s ts

/-- Model of `order_by(ConversationSession.last_activity.desc())`:
a sort placing larger `last_activity` first (ties in an unspecified
order, as in the database). -/
def order_by_activity_desc : List ConversationSession → List ConversationSession
  | [] => []
  | s :: ss => insert_by_activity s (order_by_activity_desc ss)

/-- Model of `BaseChannel.get_session` (`src/channels/base.py:47`): by
`session_id` (no status filter) when that argument is truthy, else by
`channel_user_id` filtered to `status='active'` and ordered by most
recent `last_activity`, else `None`. -/
def get_session (st : SessionStore) (ch : String)
    (session_id : Option String) (channel_user_id : Option String) :
    Option ConversationSession :=
  if strTruthy session_id then
    (st.sessions.filter (fun s =>
      decide (some s.session_id = session_id ∧ s.channel_id = ch))).head?
  else if strTruthy channel_user_id then
    (order_by_activity_desc (st.sessions.filter (fun s =>
      decide (s.channel_user_id = channel_user_id ∧ s.channel_id = ch ∧
        s.status = "active")))).head?
  else none

/-! ## `src/session_manager.py` -/

/-- Model of `SessionManager.get_or_create_session` (`src/session_manager.py:36`).
An unknown channel name makes `_get_channel` raise `ValueError`, modelled
by `Except.error`.  `context or \x7b\x7d` is `Option.getD context []`. -/
def get_or_create_session (st : SessionStore) (channel_name : String)
    (user_id : Option Nat) (channel_user_id : Option String)
    (context : Option (List (String × String))) (now : Int) :
    Except String (ConversationSession × SessionStore) :=
  if known_channel channel_name then
    match get_session st channel_name none channel_user_id with
    | none =>
        .ok (create_session st channel_name user_id channel_user_id
          (context.getD []) now)
    | some s =>
        if s.status ≠ "active" then
          .ok (create_session st channel_name user_id channel_user_id
            (context.getD []) now)
        else
          .ok (s, st)
  else
    .error ("Unknown channel: " ++ channel_name)

/-- The arguments of one sequential call to `get_or_create_session`. -/
structure GocCall where
  channel_name : String
  user_id : Option Nat
  channel_user_id : Option String
  context : Option (List (String × String))
  now : Int

/-- State transition of one `get_or_create_session` call (a raised
`ValueError` leaves the store unchanged). -/
def gocStep (st : SessionStore) (c : GocCall) : SessionStore :=
  match get_or_create_session st c.channel_name c.user_id c.channel_user_id
      c.context c.now with
  | .ok (_, st') => st'
  | .error _ => st

/-- The store after a sequence of sequential `get_or_create_session`
calls starting from the empty database. -/
def runGoc (calls : List GocCall) : SessionStore :=
  calls.foldl gocStep { sessions := [], next_id := 0 }

/-- Number of sessions with `status='active'` for one
`(channel_id, channel_user_id)` pair. -/
def activeCount (st : SessionStore) (ch : String) (cuid : Option String) : Nat :=
  (st.sessions.filter (fun s =>
    decide (s.channel_user_id = cuid ∧ s.channel_id = ch ∧
      s.status = "active"))).length

/-- Model of `SessionManager.transfer_session` (`src/session_manager.py:83`):
copies `session.get_context()` into a freshly created session on the
target channel, then sets the source row's status to `transferred`. -/
def transfer_session (st : SessionStore) (s : ConversationSession)
    (target_channel_name : String) (target_channel_user_id : Option String)
    (now : Int) : Except String (ConversationSession × SessionStore) :=
  if known_channel target_channel_name then
    let ctx := s.get_context
    let res := create_session st target_channel_name s.user_id
      target_channel_user_id ctx now
    .ok (res.1,
      { res.2 with sessions := res.2.sessions.map (fun t =>
          if t.id = s.id then { t with status := "transferred" } else t) })
  else
    .error ("Unknown channel: " ++ target_channel_name)

/-- One `db.session.delete(session)` on the session table: removes the
row with the given primary key. -/
def delete_session (sessions : List ConversationSession)
    (s : ConversationSession) : List ConversationSession :=
  sessions.filter (fun t => decide ¬ (t.id = s.id))

/-- Model of `SessionManager.cleanup_old_sessions` (`src/session_manager.py:117`):
collects the sessions with `status='closed'` whose `updated_at` is older
than `now - days_inactive` (time in days), deletes each, and returns how
many.  Cascading of their messages is outside this model. -/
def cleanup_old_sessions (st : SessionStore) (days_inactive : Int)
    (now : Int) : Nat × SessionStore :=
  let cutoff := now - days_inactive
  let old := st.sessions.filter (fun s =>
    decide (s.status = "closed" ∧ s.updated_at < cutoff))
  (old.length, { st with sessions := old.foldl delete_session st.sessions })

/-! ## `src/models.py` — ConversationMessage, and
`SessionManager.get_conversation_history` -/

/-- A row of `conversation_messages` (`src/models.py:128`), restricted to
the columns the history query uses. -/
structure ConversationMessage where
  id : Nat
  msg_session_id : Nat
  created_at : Int
deriving DecidableEq

/-- Insertion step of the model of `order_by(created_at.desc())`. -/
def insert_by_created_desc (m : ConversationMessage) :
    List ConversationMessage → List ConversationMessage
  | [] => [m]
  | t :: ts =>
      if t.created_at ≤ m.created_at then m :: t :: ts
      else t :: insert_by_created_desc m ts

/-- Model of `order_by(ConversationMessage.created_at.desc())`. -/
def order_by_created_desc : List ConversationMessage → List ConversationMessage
  | [] => []
  | m :: ms => insert_by_created_desc m (order_by_created_desc ms)

/-- Model of `SessionManager.get_conversation_history` (`src/session_manager.py:109`):
filter the table by session, order newest first, `limit`, then
`list(reversed(...))`.  The table `msgs` is in arbitrary store order. -/
def get_conversation_history (msgs : List ConversationMessage)
    (s : ConversationSession) (limit : Nat) : List ConversationMessage :=
  (((order_by_created_desc (msgs.filter (fun m =>
    decide (m.msg_session_id = s.id)))).take limit)).reverse

/-! ## `src/models.py` — AuthenticationToken, and
`WebsiteChannel.authenticate` / `InstagramChannel.authenticate` -/

/-- A row of `authentication_tokens` (`src/models.py:162`), restricted to
the columns `authenticate` and `is_valid` use. -/
structure AuthenticationToken where
  id : Nat
  token : String
  user_id : Option Nat
  channel_id : Option String
  expires_at : Option Int
  is_active : Bool
  last_used : Option Int
deriving DecidableEq

/-- Model of `AuthenticationToken.is_valid` (`src/models.py:191`): inactive tokens
are invalid; a set `expires_at` strictly in the past is invalid;
everything else is valid.  `datetime` objects are always truthy, so
`if self.expires_at and ...` tests only for `None`. -/
def AuthenticationToken.is_valid (t : AuthenticationToken) (now : Int) : Bool :=
  if ¬ t.is_active then false
  else
    match t.expires_at with
    | some e => if e < now then false else true
    | none => true

/-- Model of `WebsiteChannel.authenticate` (`src/channels/website.py:15`): a falsy
token short-circuits to `None`; otherwise look up by
token + channel + `is_active=True`, check `is_valid()`, and on success
stamp `last_used` and return `user_id`.  Returns the result together
with the (possibly updated) token table. -/
def website_authenticate (tokens : List AuthenticationToken)
    (token : Option String) (now : Int) :
    Option Nat × List AuthenticationToken :=
  if ¬ strTruthy token then (none, tokens)
  else
    match (tokens.filter (fun t =>
      decide (some t.token = token ∧ t.channel_id = some "website" ∧
        t.is_active = true))).head? with
    | some t =>
        if t.is_valid now then
          (t.user_id, tokens.map (fun u =>
            if u.id = t.id then { u with last_used := some now } else u))
        else (none, tokens)
    | none => (none, tokens)

/-- Model of `InstagramChannel.authenticate` (`src/channels/instagram.py:18`):
returns the challenge when `mode == 'subscribe'` and the presented
verify token equals the pre-shared `INSTAGRAM_VERIFY_TOKEN` environment
value (`os.getenv` yields `None` when unset), else `None`. -/
def instagram_authenticate (verify_token_set : Option String)
    (verify_token : Option String) (mode : Option String)
    (challenge : Option String) : Option String :=
  if mode = some "subscribe" ∧ verify_token = verify_token_set then challenge
  else none

/-! ## `src/app.py` — booking configuration and the Booking table -/

/-- The constant `TIME_SLOTS` (`src/app.py:67`). -/
def TIME_SLOTS : List String :=
  ["9AM–10AM", "10AM–11AM", "11AM–12PM", "1PM–2PM", "2PM–3PM", "3PM–4PM"]

/-- The mapping `SLOT_CAPACITY` (`src/app.py:76`) with the `.get(slot, 20)` default
applied at every use site. -/
def SLOT_CAPACITY (slot : String) : Int :=
  if slot = "9AM–10AM" then 20
  else if slot = "10AM–11AM" then 25
  else if slot = "11AM–12PM" then 25
  else if slot = "1PM–2PM" then 30
  else if slot = "2PM–3PM" then 30
  else if slot = "3PM–4PM" then 20
  else 20

/-- The constant `TICKET_PRICE` (`src/app.py:420`). -/
def TICKET_PRICE : Int := 100

/-- A row of `bookings` (`src/models.py:31`), restricted to the columns
the chatbot writes.  Dates are integers (see `parse_relative_date`). -/
structure Booking where
  id : Nat
  user_id : Nat
  date : Int
  time_slot : String
  visitors : Int
  amount : Int
  payment_status : String
  payment_method : Option String
deriving DecidableEq

/-- The occupancy query
`db.session.query(coalesce(sum(Booking.visitors), 0)).filter_by(date=d, time_slot=slot)`
(`src/app.py:668` and `src/app.py:831`). -/
def booked_sum (bookings : List Booking) (d : Int) (slot : String) : Int :=
  ((bookings.filter (fun b =>
    decide (b.date = d ∧ b.time_slot = slot))).map Booking.visitors).sum

/-! ## `src/app.py` — the `/chatbot` booking dialogue -/

/-- A JSON value sitting under the `visitors` key of the request or of
the stored booking dict: the client sends either a number or a string. -/
inductive VisVal where
  | vnum (n : Int)
  | vstr (s : String)
deriving DecidableEq

/-- Python truthiness of a `visitors` value: `0` and `""` are falsy. -/
def visTruthyV : VisVal → Bool
  | .vnum n => n ≠ 0
  | .vstr s => s ≠ ""

/-- Truthiness of an optional `visitors` value (`None` is falsy). -/
def visTruthy : Option VisVal → Bool
  | none => false
  | some v => visTruthyV v

/-- Python `x or y` on optional `visitors` values. -/
def pyOrVis (a b : Option VisVal) : Option VisVal :=
  if visTruthy a then a else b

/-- Python `int(...)` on a `visitors` value; `none` models the
`ValueError` raised on a non-numeric string. -/
def visToInt : VisVal → Option Int
  | .vnum n => some n
  | .vstr s => s.toInt?

/-- Model of `datetime.strptime` with format `%Y-%m-%d` on an injective
integer encoding of calendar dates; `none` models the raised
`ValueError`.  Leap-day validation is not reproduced. -/
def strptime_iso (s : String) : Option Int :=
  match s.splitOn "-" with
  | [y, m, d] =>
      match y.toNat?, m.toNat?, d.toNat? with
      | some yn, some mn, some dn =>
          if 1 ≤ mn ∧ mn ≤ 12 ∧ 1 ≤ dn ∧ dn ≤ 31 then
            some (Int.ofNat (yn * 10000 + mn * 100 + dn))
          else none
      | _, _, _ => none
  | _ => none

/-- Date resolution of the `select_date` branch (`src/app.py:655`):
`today`/`tomorrow` are relative to the server clock, and a `strptime`
failure is caught and falls back to today. -/
def parse_relative_date (today : Int) (s : String) : Int :=
  if s = "today" then today
  else if s = "tomorrow" then today + 1
  else (strptime_iso s).getD today

/-- Date resolution of the `confirm_and_pay` branch (`src/app.py:823`):
same keywords, but a `strptime` failure propagates to the enclosing
`except Exception` handler, modelled by `none`. -/
def parse_confirm_date (today : Int) (s : String) : Option Int :=
  if s = "today" then some today
  else if s = "tomorrow" then some (today + 1)
  else strptime_iso s

/-- The Flask-session dict `session['chatbot_booking']`.  Every key is
optional; a missing key and an explicit `None` value are identified. -/
structure ChatBooking where
  step : Option String
  date : Option String
  time_slot : Option String
  visitors : Option VisVal
deriving DecidableEq

/-- The `booking_data` dict of the request body (the stored dict echoed
back by the client), same key set as `ChatBooking`. -/
abbrev BookingData := ChatBooking

/-- Truthiness of the `booking_data` dict
(`if booking_data_from_request:`): a dict is truthy when non-empty,
i.e. when it carries at least one key. -/
def bdTruthy (b : BookingData) : Bool :=
  b.step.isSome || b.date.isSome || b.time_slot.isSome || b.visitors.isSome

/-- Model of the dict update `session['chatbot_booking'].update(booking_data_from_request)`:
keys present in the request dict overwrite the stored ones. -/
def updateCB (cb : ChatBooking) (b : BookingData) : ChatBooking :=
  { step := if b.step.isSome then b.step else cb.step
    date := if b.date.isSome then b.date else cb.date
    time_slot := if b.time_slot.isSome then b.time_slot else cb.time_slot
    visitors := if b.visitors.isSome then b.visitors else cb.visitors }

/-- The empty dict. -/
def emptyCB : ChatBooking :=
  { step := none, date := none, time_slot := none, visitors := none }

/-- The fields of the POST body that the four booking-step branches
read. -/
structure ChatReq where
  message : String
  action : Option String
  step : Option String
  booking_data : BookingData
  date : Option String
  time_slot : Option String
  visitors : Option VisVal
  payment_type : Option String
deriving DecidableEq

/-- One button of a chatbot reply, reduced to its `action` and `value`
fields (the display text is a constant function of those). -/
structure ChatButton where
  action : String
  value : String
deriving DecidableEq

/-- One `jsonify(...)` reply of the booking branches.  `kind` names the
return site (standing for the constant skeleton of the response text),
`resp_step` is the `step` field of the JSON body, `available` the
remaining-spots figure interpolated into a capacity rejection,
`success`/`booking_id` the confirmation fields, and `err` marks an
uncaught exception (`KeyError`/`ValueError`), i.e. an HTTP 500. -/
structure ChatOut where
  kind : String
  resp_step : Option String
  buttons : List ChatButton
  available : Option Int
  success : Bool
  booking_id : Option Nat
  err : Bool
deriving DecidableEq

/-- A reply that only carries text (and possibly buttons). -/
def plainOut (kind : String) (buttons : List ChatButton) : ChatOut :=
  { kind := kind, resp_step := none, buttons := buttons,
    available := none, success := false, booking_id := none, err := false }

/-- An uncaught exception (HTTP 500). -/
def errOut (kind : String) : ChatOut :=
  { kind := kind, resp_step := none, buttons := [],
    available := none, success := false, booking_id := none, err := true }

/-- Result of one booking-step branch: the reply, the stored
`session['chatbot_booking']` after the branch, and the booking table
(with its autoincrement counter). -/
structure StepResult where
  out : ChatOut
  cb : Option ChatBooking
  bookings : List Booking
  next_booking_id : Nat
deriving DecidableEq

/-- The `slots_data` list the `select_date` branch computes
(`src/app.py:666`): slot name, remaining seats, and the `is_full`
flag `booked_sum >= capacity`. -/
def slots_data_for (bookings : List Booking) (d : Int) :
    List (String × Int × Bool) :=
  TIME_SLOTS.map (fun slot =>
    let booked := booked_sum bookings d slot
    let capacity := SLOT_CAPACITY slot
    (slot, max 0 (capacity - booked), decide (booked ≥ capacity)))

/-- The `available_slots` list (`src/app.py:679`): the non-full ones. -/
def available_slots_for (bookings : List Booking) (d : Int) :
    List (String × Int × Bool) :=
  (slots_data_for bookings d).filter (fun sd => ¬ sd.2.2)

/-- The `select_date` branch of the chatbot POST handler
(`src/app.py:642`).  Note the order of effects in the source: the
selected date and `step='select_time'` are written into
`session['chatbot_booking']` *before* availability is computed, so the
stored step advances even when every slot is full and the reply
re-presents `select_date`.  Dates are rendered in button values by
`toString` (standing for `isoformat()`). -/
def chat_select_date (cb? : Option ChatBooking) (bookings : List Booking)
    (next_booking_id : Nat) (req : ChatReq) (today : Int) : StepResult :=
  let selected_date := pyOrStr req.date req.booking_data.date
  if ¬ strTruthy selected_date then
    { out := plainOut "select_date_missing" [], cb := cb?,
      bookings := bookings, next_booking_id := next_booking_id }
  else
    let cb1 := { (cb?.getD emptyCB) with
                   date := selected_date, step := some "select_time" }
    let target_date := parse_relative_date today (selected_date.getD "")
    let available_slots := available_slots_for bookings target_date
    if available_slots.isEmpty then
      { out := { kind := "all_slots_full", resp_step := some "select_date",
                 buttons := [⟨"select_date", "tomorrow"⟩,
                             ⟨"select_date", toString (target_date + 7)⟩,
                             ⟨"start_booking", ""⟩],
                 available := none, success := false, booking_id := none,
                 err := false },
        cb := some cb1, bookings := bookings,
        next_booking_id := next_booking_id }
    else
      { out := { kind := "date_selected", resp_step := some "select_time",
                 buttons := available_slots.map (fun sd =>
                   ⟨"select_time", sd.1⟩),
                 available := none, success := false, booking_id := none,
                 err := false },
        cb := some cb1, bookings := bookings,
        next_booking_id := next_booking_id }

/-- The `select_time` branch (`src/app.py:709`).  A missing
`session['chatbot_booking']` raises `KeyError` at
`session['chatbot_booking']['time_slot'] = ...`. -/
def chat_select_time (cb? : Option ChatBooking) (bookings : List Booking)
    (next_booking_id : Nat) (req : ChatReq) : StepResult :=
  let selected_slot := pyOrStr req.time_slot req.booking_data.time_slot
  if ¬ strTruthy selected_slot then
    { out := plainOut "select_time_missing" [], cb := cb?,
      bookings := bookings, next_booking_id := next_booking_id }
  else
    match cb? with
    | none =>
        { out := errOut "keyerror_booking", cb := cb?,
          bookings := bookings, next_booking_id := next_booking_id }
    | some cb =>
        { out := { kind := "time_selected", resp_step := some "select_visitors",
                   buttons := [⟨"select_visitors", "1"⟩,
                               ⟨"select_visitors", "2"⟩,
                               ⟨"select_visitors", "3"⟩,
                               ⟨"select_visitors", "4"⟩,
                               ⟨"custom_visitors", ""⟩],
                   available := none, success := false, booking_id := none,
                   err := false },
          cb := some { cb with time_slot := selected_slot,
                               step := some "select_visitors" },
          bookings := bookings, next_booking_id := next_booking_id }

/-- The `select_visitors` branch (`src/app.py:731`):
`visitors = int(data.get('visitors') or booking_data.get('visitors') or 1)`
— because of Python truthiness a submitted count of `0` (JSON number)
falls through to the next operand of `or`; a non-numeric string raises
`ValueError` (HTTP 500).  An out-of-range count is answered with a
re-prompt and no state change; an accepted count is stored together with
`step='confirm_booking'` (raising `KeyError` when no booking dict is
stored). -/
def chat_select_visitors (cb? : Option ChatBooking) (bookings : List Booking)
    (next_booking_id : Nat) (req : ChatReq) : StepResult :=
  let raw := pyOrVis req.visitors
    (pyOrVis req.booking_data.visitors (some (.vnum 1)))
  match raw.bind visToInt with
  | none =>
      { out := errOut "valueerror_visitors", cb := cb?,
        bookings := bookings, next_booking_id := next_booking_id }
  | some visitors =>
      if visitors < 1 ∨ visitors > 10 then
        { out := plainOut "visitors_out_of_range" [], cb := cb?,
          bookings := bookings, next_booking_id := next_booking_id }
      else
        match cb? with
        | none =>
            { out := errOut "keyerror_booking", cb := cb?,
              bookings := bookings, next_booking_id := next_booking_id }
        | some cb =>
            { out := { kind := "visitors_selected",
                       resp_step := some "confirm_booking",
                       buttons := [⟨"confirm_and_pay", "online"⟩,
                                   ⟨"confirm_and_pay", "cash"⟩,
                                   ⟨"start_booking", ""⟩],
                       available := none, success := false,
                       booking_id := none, err := false },
              cb := some { cb with visitors := some (.vnum visitors),
                                   step := some "confirm_booking" },
              bookings := bookings, next_booking_id := next_booking_id }

/-- The `confirm_and_pay` branch (`src/app.py:768`): merge any
`booking_data` from the request into the stored dict, resolve date,
slot and visitor count through `or`-chains with fallbacks, re-check
capacity against the live occupancy, and either reject (replying with
the remaining count and `step='select_time'`, creating nothing) or
insert the `Booking` row and clear the stored dict.  A `strptime`
failure (and any other exception in the `try`) is answered by the
`except Exception` handler's reply. -/
def chat_confirm_and_pay (cb? : Option ChatBooking) (user_id : Option Nat)
    (bookings : List Booking) (next_booking_id : Nat) (req : ChatReq)
    (today : Int) : StepResult :=
  let payment_type := req.payment_type.getD "online"
  let cb1? := if bdTruthy req.booking_data then
      some (updateCB (cb?.getD emptyCB) req.booking_data)
    else cb?
  let booking_info := if bdTruthy req.booking_data then
      updateCB (cb?.getD emptyCB) req.booking_data
    else cb?.getD emptyCB
  let date_str0 := pyOrStr booking_info.date
    (pyOrStr req.booking_data.date req.date)
  let time_slot0 := pyOrStr booking_info.time_slot
    (pyOrStr req.booking_data.time_slot req.time_slot)
  let visitors_value := pyOrVis booking_info.visitors
    (pyOrVis req.booking_data.visitors req.visitors)
  let visitors0 : Int := match visitors_value with
    | none => 1
    | some v => (visToInt v).getD 1
  -- the one-more-time recovery from the session (`src/app.py:799`)
  let recover := ¬ strTruthy date_str0 ∨ ¬ strTruthy time_slot0
  let binfo2 := cb1?.getD emptyCB
  let date_str := if recover ∧ bdTruthy binfo2 then
      pyOrStr binfo2.date date_str0
    else date_str0
  let time_slot := if recover ∧ bdTruthy binfo2 then
      pyOrStr binfo2.time_slot time_slot0
    else time_slot0
  let visitors : Int := if recover ∧ bdTruthy binfo2 then
      (if visTruthy binfo2.visitors then
        match binfo2.visitors with
        | some v => (visToInt v).getD 1
        | none => visitors0
      else visitors0)
    else visitors0
  if ¬ strTruthy date_str ∨ ¬ strTruthy time_slot then
    { out := plainOut "incomplete" [⟨"start_booking", ""⟩], cb := cb1?,
      bookings := bookings, next_booking_id := next_booking_id }
  else
    match parse_confirm_date today (date_str.getD "") with
    | none =>
        { out := plainOut "create_error" [], cb := cb1?,
          bookings := bookings, next_booking_id := next_booking_id }
    | some target_date =>
        let ts := time_slot.getD ""
        let booked := booked_sum bookings target_date ts
        let capacity := SLOT_CAPACITY ts
        if booked + visitors > capacity then
          { out := { kind := "capacity_reject",
                     resp_step := some "select_time",
                     buttons := [⟨"select_date", date_str.getD ""⟩,
                                 ⟨"start_booking", ""⟩],
                     available := some (max 0 (capacity - booked)),
                     success := false, booking_id := none, err := false },
            cb := cb1?, bookings := bookings,
            next_booking_id := next_booking_id }
        else
          match user_id with
          | none =>
              { out := errOut "keyerror_user", cb := cb1?,
                bookings := bookings, next_booking_id := next_booking_id }
          | some u =>
              let b : Booking :=
                { id := next_booking_id
                  user_id := u
                  date := target_date
                  time_slot := ts
                  visitors := visitors
                  amount := visitors * TICKET_PRICE
                  payment_status := if payment_type = "cash" then
                      "cash_pending"
                    else "pending"
                  payment_method := if payment_type = "cash" then some "cash"
                    else none }
              { out := { kind := if payment_type = "cash" then
                             "confirmed_cash"
                           else "created_online",
                         resp_step := none,
                         buttons := if payment_type = "cash" then
                             [⟨"pay_online", ""⟩, ⟨"view_bookings", ""⟩]
                           else
                             [⟨"pay_online", ""⟩, ⟨"change_to_cash", ""⟩,
                              ⟨"view_bookings", ""⟩],
                         available := none, success := true,
                         booking_id := some next_booking_id, err := false },
                cb := none, bookings := bookings ++ [b],
                next_booking_id := next_booking_id + 1 }

/-! ## Concrete inputs used by counterexamples and witnesses -/

/-- At most one `status='active'` session per channel and non-null,
non-empty channel identity. -/
def UniqueActive (st : SessionStore) : Prop :=
  ∀ (ch uid : String), uid ≠ "" → activeCount st ch (some uid) ≤ 1

/-- One `get_or_create_session` call that carries no channel identity
(`channel_user_id=None`, as in `WebsiteChannel.receive_message` when the
request supplies none). -/
def gocNoneCall : GocCall :=
  { channel_name := "website", user_id := none, channel_user_id := none,
    context := none, now := 0 }

/-- A booking table in which every configured slot of day `100` is
booked to exactly its capacity. -/
def fullBookings : List Booking :=
  [{ id := 0, user_id := 1, date := 100, time_slot := "9AM–10AM",
     visitors := 20, amount := 2000, payment_status := "pending",
     payment_method := none },
   { id := 1, user_id := 1, date := 100, time_slot := "10AM–11AM",
     visitors := 25, amount := 2500, payment_status := "pending",
     payment_method := none },
   { id := 2, user_id := 1, date := 100, time_slot := "11AM–12PM",
     visitors := 25, amount := 2500, payment_status := "pending",
     payment_method := none },
   { id := 3, user_id := 1, date := 100, time_slot := "1PM–2PM",
     visitors := 30, amount := 3000, payment_status := "pending",
     payment_method := none },
   { id := 4, user_id := 1, date := 100, time_slot := "2PM–3PM",
     visitors := 30, amount := 3000, payment_status := "pending",
     payment_method := none },
   { id := 5, user_id := 1, date := 100, time_slot := "3PM–4PM",
     visitors := 20, amount := 2000, payment_status := "pending",
     payment_method := none }]

/-- The dialogue dict as `start_booking` initializes it. -/
def startCB : ChatBooking :=
  { step := some "select_date", date := none, time_slot := none,
    visitors := none }

/-- A `select_date` submission of the relative date `today`. -/
def reqSelectDateToday : ChatReq :=
  { message := "", action := some "select_date", step := none,
    booking_data := emptyCB, date := some "today", time_slot := none,
    visitors := none, payment_type := none }

/-- A `select_visitors` submission of the JSON number `0`. -/
def reqVisitorsZero : ChatReq :=
  { message := "", action := some "select_visitors", step := none,
    booking_data := emptyCB, date := none, time_slot := none,
    visitors := some (.vnum 0), payment_type := none }

/-- The dialogue dict at the `select_visitors` step. -/
def cbAtVisitors : ChatBooking :=
  { step := some "select_visitors", date := some "today",
    time_slot := some "9AM–10AM", visitors := none }

/-- A booking table with 19 of the 20 seats of slot `9AM–10AM` of day
`100` taken. -/
def nearlyFullBookings : List Booking :=
  [{ id := 0, user_id := 1, date := 100, time_slot := "9AM–10AM",
     visitors := 19, amount := 1900, payment_status := "pending",
     payment_method := none }]

/-- The dialogue dict at the `confirm_booking` step, asking for 5
visitors on slot `9AM–10AM` of `today`. -/
def cbAtConfirm : ChatBooking :=
  { step := some "confirm_booking", date := some "today",
    time_slot := some "9AM–10AM", visitors := some (.vnum 5) }

/-- An expired but still-active website token. -/
def expiredToken : AuthenticationToken :=
  { id := 1, token := "tk", user_id := some 7,
    channel_id := some "website", expires_at := some 5,
    is_active := true, last_used := none }

/-- A `confirm_and_pay` submission choosing cash payment. -/
def reqConfirmCash : ChatReq :=
  { message := "", action := some "confirm_and_pay", step := none,
    booking_data := emptyCB, date := none, time_slot := none,
    visitors := none, payment_type := some "cash" }

/-- A closed session last updated on day 10 (40 days before day 50). -/
def closedOldSessionW : ConversationSession :=
  { id := 0, session_id := "uuid-0", user_id := some 1,
    channel_id := "website", channel_user_id := some "a",
    status := "closed", context := [], updated_at := 10,
    last_activity := 10 }

/-- An active session equally untouched since day 10. -/
def activeOldSessionW : ConversationSession :=
  { id := 1, session_id := "uuid-1", user_id := some 2,
    channel_id := "website", channel_user_id := some "b",
    status := "active", context := [], updated_at := 10,
    last_activity := 10 }

/-- The store of the cleanup scenario. -/
def cleanupStoreW : SessionStore :=
  { sessions := [closedOldSessionW, activeOldSessionW], next_id := 2 }

/-- The website session about to be transferred, carrying a
mid-dialogue context. -/
def sourceSessionW : ConversationSession :=
  { id := 0, session_id := "uuid-0", user_id := some 1,
    channel_id := "website", channel_user_id := some "web-user",
    status := "active",
    context := [("step", "select_visitors"), ("date", "2024-12-20")],
    updated_at := 0, last_activity := 0 }

/-- The store of the transfer scenario. -/
def sourceStoreW : SessionStore :=
  { sessions := [sourceSessionW], next_id := 1 }

/-- The session `transfer_session` creates on the instagram channel. -/
def transferredNewW : ConversationSession :=
  { id := 1, session_id := "uuid-1", user_id := some 1,
    channel_id := "instagram", channel_user_id := some "insta-user",
    status := "active",
    context := [("step", "select_visitors"), ("date", "2024-12-20")],
    updated_at := 5, last_activity := 5 }

/-- The store after the transfer. -/
def transferredStoreW : SessionStore :=
  { sessions := [{ sourceSessionW with status := "transferred" },
                 transferredNewW],
    next_id := 2 }

/-- One `get_or_create_session` call with a real channel identity. -/
def gocUserCall : GocCall :=
  { channel_name := "website", user_id := none,
    channel_user_id := some "u", context := none, now := 0 }

/-- A `select_visitors` submission of the JSON number `11`. -/
def reqVisitorsEleven : ChatReq :=
  { message := "", action := some "select_visitors", step := none,
    booking_data := emptyCB, date := none, time_slot := none,
    visitors := some (.vnum 11), payment_type := none }

/-! ## Lemmas about the sort models -/

theorem mem_insert_by_created_desc {a m : ConversationMessage}
    {l : List ConversationMessage} :
    a ∈ insert_by_created_desc m l ↔ a = m ∨ a ∈ l := by
  induction l with
  | nil => simp [insert_by_created_desc]
  | cons t ts ih =>
      by_cases h : t.created_at ≤ m.created_at
      · simp [insert_by_created_desc, h]
      · simp only [insert_by_created_desc, if_neg h, List.mem_cons, ih]
        tauto

theorem pairwise_insert_by_created_desc {m : ConversationMessage}
    {l : List ConversationMessage}
    (h : l.Pairwise (fun a b => b.created_at ≤ a.created_at)) :
    (insert_by_created_desc m l).Pairwise
      (fun a b => b.created_at ≤ a.created_at) := by
  induction l with
  | nil => simp [insert_by_created_desc]
  | cons t ts ih =>
      rcases List.pairwise_cons.mp h with ⟨ht, hts⟩
      by_cases hc : t.created_at ≤ m.created_at
      · simp only [insert_by_created_desc, if_pos hc]
        refine List.pairwise_cons.mpr ⟨?_, h⟩
        intro x hx
        rcases List.mem_cons.mp hx with rfl | hx
        · exact hc
        · exact le_trans (ht x hx) hc
      · simp only [insert_by_created_desc, if_neg hc]
        refine List.pairwise_cons.mpr ⟨?_, ih hts⟩
        intro x hx
        rcases mem_insert_by_created_desc.mp hx with rfl | hx
        · exact le_of_lt (lt_of_not_le hc)
        · exact ht x hx

theorem pairwise_order_by_created_desc (l : List ConversationMessage) :
    (order_by_created_desc l).Pairwise
      (fun a b => b.created_at ≤ a.created_at) := by
  induction l with
  | nil => simp [order_by_created_desc]
  | cons m ms ih => exact pairwise_insert_by_created_desc ih

theorem mem_insert_by_activity {a s : ConversationSession}
    {l : List ConversationSession} :
    a ∈ insert_by_activity s l ↔ a = s ∨ a ∈ l := by
  induction l with
  | nil => simp [insert_by_activity]
  | cons t ts ih =>
      by_cases h : t.last_activity ≤ s.last_activity
      · simp [insert_by_activity, h]
      · simp only [insert_by_activity, if_neg h, List.mem_cons, ih]
        tauto

theorem mem_order_by_activity_desc {a : ConversationSession}
    {l : List ConversationSession} :
    a ∈ order_by_activity_desc l ↔ a ∈ l := by
  induction l with
  | nil => simp [order_by_activity_desc]
  | cons s ss ih =>
      simp only [order_by_activity_desc, mem_insert_by_activity, ih,
        List.mem_cons]

theorem length_insert_by_activity (s : ConversationSession)
    (l : List ConversationSession) :
    (insert_by_activity s l).length = l.length + 1 := by
  induction l with
  | nil => rfl
  | cons t ts ih =>
      by_cases h : t.last_activity ≤ s.last_activity
      · simp [insert_by_activity, h]
      · simp [insert_by_activity, h, ih]

theorem length_order_by_activity_desc (l : List ConversationSession) :
    (order_by_activity_desc l).length = l.length := by
  induction l with
  | nil => rfl
  | cons s ss ih => simp [order_by_activity_desc, length_insert_by_activity, ih]

theorem order_by_activity_desc_eq_nil {l : List ConversationSession} :
    order_by_activity_desc l = [] ↔ l = [] := by
  constructor
  · intro h
    have := length_order_by_activity_desc l
    rw [h] at this
    exact List.length_eq_zero.mp this.symm
  · intro h; subst h; rfl

/-! ## Lemmas about `get_session` -/

/-- Every session the `channel_user_id` lookup returns is an active
session of the store on the queried channel and identity. -/
theorem get_session_cuid_spec {st : SessionStore} {ch : String}
    {cuid : Option String} {t : ConversationSession}
    (h : get_session st ch none cuid = some t) :
    t.status = "active" ∧ t ∈ st.sessions ∧ t.channel_id = ch ∧
      t.channel_user_id = cuid := by
  unfold get_session at h
  rw [if_neg (by simp [strTruthy])] at h
  by_cases hct : strTruthy cuid = true
  · rw [if_pos hct] at h
    cases hfl : order_by_activity_desc (st.sessions.filter (fun s =>
        decide (s.channel_user_id = cuid ∧ s.channel_id = ch ∧
          s.status = "active"))) with
    | nil => rw [hfl] at h; simp at h
    | cons a rest =>
        have hmem : a ∈ order_by_activity_desc (st.sessions.filter (fun s =>
            decide (s.channel_user_id = cuid ∧ s.channel_id = ch ∧
              s.status = "active"))) := by
          rw [hfl]; exact List.mem_cons_self _ _
        rw [hfl] at h
        simp only [List.head?_cons, Option.some.injEq] at h
        subst h
        have hmem' := mem_order_by_activity_desc.mp hmem
        rcases List.mem_filter.mp hmem' with ⟨hin, hpred⟩
        rcases of_decide_eq_true hpred with ⟨h1, h2, h3⟩
        exact ⟨h3, hin, h2, h1⟩
  · rw [if_neg hct] at h
    simp at h

/-! ## C8 — the Instagram webhook handshake -/

/-- C8: `InstagramChannel.authenticate` returns the challenge exactly
when `mode` is `"subscribe"` and the presented verify token matches the
pre-shared secret; in every other case it returns null. -/
theorem instagram_authenticate_handshake (secret vt mode : Option String)
    (c : String) :
    (instagram_authenticate secret vt mode (some c) = some c ↔
      mode = some "subscribe" ∧ vt = secret) ∧
    (∀ ch : Option String, ¬ (mode = some "subscribe" ∧ vt = secret) →
      instagram_authenticate secret vt mode ch = none) := by
  constructor
  · constructor
    · intro h
      by_contra hc
      rw [instagram_authenticate, if_neg hc] at h
      exact Option.noConfusion h
    · intro hcond
      rw [instagram_authenticate, if_pos hcond]
  · intro ch hcond
    rw [instagram_authenticate, if_neg hcond]

/-- Witness for C8 at a concrete secret, token, mode and challenge. -/
theorem instagram_authenticate_handshake_witness :
    instagram_authenticate (some "vt0") (some "vt0") (some "subscribe")
        (some "ch0") = some "ch0" ∧
    instagram_authenticate (some "vt0") (some "bad") (some "subscribe")
        (some "ch0") = none :=
  ⟨(instagram_authenticate_handshake (some "vt0") (some "vt0")
      (some "subscribe") "ch0").1.mpr ⟨rfl, rfl⟩,
   (instagram_authenticate_handshake (some "vt0") (some "bad")
      (some "subscribe") "ch0").2 (some "ch0") (by decide)⟩

/-! ## C6 — conversation history -/

/-- C6: `get_conversation_history` returns at most `limit` messages, in
non-decreasing `created_at` (oldest-first) order, for every store
order. -/
theorem get_conversation_history_bounded_chronological
    (msgs : List ConversationMessage) (s : ConversationSession)
    (limit : Nat) :
    (get_conversation_history msgs s limit).length ≤ limit ∧
    (get_conversation_history msgs s limit).Pairwise
      (fun a b => a.created_at ≤ b.created_at) := by
  constructor
  · unfold get_conversation_history
    rw [List.length_reverse, List.length_take]
    exact Nat.min_le_left _ _
  · unfold get_conversation_history
    rw [List.pairwise_reverse]
    exact List.Pairwise.sublist (List.take_sublist _ _)
      (pairwise_order_by_created_desc _)

/-! ## C7 — website token authentication -/

/-- C7: when every stored record for the presented token string has
`expires_at` in the past, `WebsiteChannel.authenticate` returns null and
leaves the table untouched (no `last_used` update), regardless of
`is_active`; and in general the table changes only when a matching
active token passes `is_valid` (successful authentication). -/
theorem website_authenticate_expired_never_accepts
    (tokens : List AuthenticationToken) (tok : String) (now : Int)
    (h : ∀ t ∈ tokens, t.token = tok → ∃ e, t.expires_at = some e ∧ e < now) :
    website_authenticate tokens (some tok) now = (none, tokens) ∧
    (∀ (tokens' : List AuthenticationToken) (tk : Option String) (n : Int),
      (website_authenticate tokens' tk n).2 ≠ tokens' →
      ∃ t ∈ tokens', (t.channel_id = some "website" ∧ t.is_active = true) ∧
        t.is_valid n = true) := by
  constructor
  · unfold website_authenticate
    by_cases htr : strTruthy (some tok) = true
    · rw [if_neg (by simp [htr])]
      cases hfl : tokens.filter (fun t =>
          decide (some t.token = some tok ∧ t.channel_id = some "website" ∧
            t.is_active = true)) with
      | nil => rfl
      | cons t rest =>
          have hmem : t ∈ tokens.filter (fun t =>
              decide (some t.token = some tok ∧
                t.channel_id = some "website" ∧ t.is_active = true)) := by
            rw [hfl]; exact List.mem_cons_self _ _
          rcases List.mem_filter.mp hmem with ⟨hin, hpred⟩
          rcases of_decide_eq_true hpred with ⟨htok, hch, hact⟩
          rcases h t hin (Option.some.inj htok) with ⟨e, he, hlt⟩
          have hinv : t.is_valid now = false := by
            unfold AuthenticationToken.is_valid
            rw [he, if_neg (by simp [hact])]
            simp [hlt]
          simp [List.head?_cons, hinv]
    · rw [if_pos htr]
  · intro tokens' tk n hne
    unfold website_authenticate at hne
    by_cases htr : strTruthy tk = true
    · rw [if_neg (by simp [htr])] at hne
      cases hfl : tokens'.filter (fun t =>
          decide (some t.token = tk ∧ t.channel_id = some "website" ∧
            t.is_active = true)) with
      | nil =>
          rw [hfl] at hne
          exact absurd rfl hne
      | cons t rest =>
          have hmem : t ∈ tokens'.filter (fun t =>
              decide (some t.token = tk ∧ t.channel_id = some "website" ∧
                t.is_active = true)) := by
            rw [hfl]; exact List.mem_cons_self _ _
          rcases List.mem_filter.mp hmem with ⟨hin, hpred⟩
          rcases of_decide_eq_true hpred with ⟨htok, hch, hact⟩
          by_cases hv : t.is_valid n = true
          · exact ⟨t, hin, ⟨hch, hact⟩, hv⟩
          · rw [hfl] at hne
            refine absurd ?_ hne
            simp only [List.head?_cons]
            rw [if_neg (by simp [hv])]
    · rw [if_pos htr] at hne
      exact absurd rfl hne

/-- Witness for C7: one expired but still-active website token; the
call returns null and the table is unchanged. -/
theorem website_authenticate_expired_witness :
    (∀ t ∈ [expiredToken], t.token = "tk" →
      ∃ e, t.expires_at = some e ∧ e < 10) ∧
    website_authenticate [expiredToken] (some "tk") 10 =
      (none, [expiredToken]) :=
  ⟨by decide,
   (website_authenticate_expired_never_accepts [expiredToken] "tk" 10
      (by decide)).1⟩

/-! ## C10 — sessions returned by get_or_create_session are active -/

/-- C10: every session `get_or_create_session` returns has
`status='active'`; the found-but-not-active branch is unreachable
because the identity lookup only ever returns active sessions. -/
theorem get_or_create_session_returns_active
    (st : SessionStore) (ch : String) (uid : Option Nat)
    (cuid : Option String) (ctx : Option (List (String × String)))
    (now : Int) (s : ConversationSession) (st' : SessionStore)
    (h : get_or_create_session st ch uid cuid ctx now = .ok (s, st')) :
    s.status = "active" ∧
    (∀ (st0 : SessionStore) (ch0 : String) (cuid0 : Option String)
        (t : ConversationSession),
      get_session st0 ch0 none cuid0 = some t → t.status = "active") := by
  refine ⟨?_, fun st0 ch0 cuid0 t ht => (get_session_cuid_spec ht).1⟩
  unfold get_or_create_session at h
  by_cases hk : known_channel ch = true
  · rw [if_pos hk] at h
    cases hg : get_session st ch none cuid with
    | none =>
        rw [hg] at h
        injection h with h2
        have hs : (create_session st ch uid cuid (ctx.getD []) now).1 = s :=
          congrArg Prod.fst h2
        have hact : (create_session st ch uid cuid
            (ctx.getD []) now).1.status = "active" := rfl
        exact hs ▸ hact
    | some s0 =>
        rw [hg] at h
        have hact := (get_session_cuid_spec hg).1
        dsimp only at h
        rw [if_neg (by simp [hact])] at h
        injection h with h2
        have hs : s0 = s := congrArg Prod.fst h2
        exact hs ▸ hact
  · rw [if_neg hk] at h
    exact Except.noConfusion h

/-- Witness for C10: the call on the empty store creates and returns an
active session. -/
theorem get_or_create_session_returns_active_witness :
    get_or_create_session ⟨[], 0⟩ "website" none (some "u") none 0 =
      .ok (create_session ⟨[], 0⟩ "website" none (some "u") [] 0) ∧
    (create_session ⟨[], 0⟩ "website" none (some "u") [] 0).1.status =
      "active" :=
  ⟨rfl,
   (get_or_create_session_returns_active ⟨[], 0⟩ "website" none (some "u")
      none 0 _ _ rfl).1⟩

/-! ## C4 — cleanup_old_sessions -/

theorem foldl_delete_session (old : List ConversationSession) :
    ∀ base : List ConversationSession,
      old.foldl delete_session base =
        base.filter (fun t => decide (∀ s ∈ old, s.id ≠ t.id)) := by
  induction old with
  | nil =>
      intro base
      simp
  | cons s olds ih =>
      intro base
      rw [List.foldl_cons, ih]
      unfold delete_session
      rw [List.filter_filter]
      refine List.filter_congr (fun x hx => ?_)
      have h1 : decide (¬ x.id = s.id) = decide (s.id ≠ x.id) :=
        decide_eq_decide.mpr ⟨fun h hh => h hh.symm, fun h hh => h hh.symm⟩
      rw [h1, Bool.and_comm, ← Bool.decide_and, decide_eq_decide]
      exact (@List.forall_mem_cons ConversationSession
        (fun u => u.id ≠ x.id) s olds).symm

/-- C4: `cleanup_old_sessions` deletes exactly the sessions with
`status='closed'` and `updated_at` older than the cutoff, returns their
count, and leaves every `active`, `escalated` or `transferred` session
untouched regardless of age. -/
theorem cleanup_old_sessions_spec (st : SessionStore)
    (days_inactive now : Int)
    (hnodup : (st.sessions.map ConversationSession.id).Nodup) :
    (cleanup_old_sessions st days_inactive now).2.sessions =
      st.sessions.filter (fun s => decide (¬ (s.status = "closed" ∧
        s.updated_at < now - days_inactive))) ∧
    (cleanup_old_sessions st days_inactive now).1 =
      (st.sessions.filter (fun s => decide (s.status = "closed" ∧
        s.updated_at < now - days_inactive))).length ∧
    (∀ s ∈ st.sessions,
      (s.status = "active" ∨ s.status = "escalated" ∨
        s.status = "transferred") →
      s ∈ (cleanup_old_sessions st days_inactive now).2.sessions) := by
  have hinj := List.inj_on_of_nodup_map hnodup
  have hmain : (cleanup_old_sessions st days_inactive now).2.sessions =
      st.sessions.filter (fun s => decide (¬ (s.status = "closed" ∧
        s.updated_at < now - days_inactive))) := by
    show (st.sessions.filter (fun s => decide (s.status = "closed" ∧
        s.updated_at < now - days_inactive))).foldl delete_session
        st.sessions = _
    rw [foldl_delete_session]
    refine List.filter_congr (fun t ht => ?_)
    rw [decide_eq_decide]
    constructor
    · intro hall hpred
      exact hall t (List.mem_filter.mpr ⟨ht, decide_eq_true hpred⟩) rfl
    · intro hnp u hu hid
      rcases List.mem_filter.mp hu with ⟨hul, hup⟩
      exact hnp (hinj hul ht hid ▸ of_decide_eq_true hup)
  refine ⟨hmain, rfl, ?_⟩
  intro s hs hstat
  rw [hmain]
  refine List.mem_filter.mpr ⟨hs, decide_eq_true ?_⟩
  rintro ⟨hc, _⟩
  rcases hstat with hst | hst | hst <;> rw [hst] at hc <;>
    exact absurd hc (by decide)

/-- Witness for C4: the spec scenario — one closed session 40 days old
and one equally old active session; only the closed one is deleted and
the count is 1. -/
theorem cleanup_old_sessions_spec_witness :
    ((cleanupStoreW.sessions.map ConversationSession.id).Nodup) ∧
    (cleanup_old_sessions cleanupStoreW 30 50).1 = 1 ∧
    (cleanup_old_sessions cleanupStoreW 30 50).2.sessions =
      [activeOldSessionW] :=
  ⟨by decide,
   (cleanup_old_sessions_spec cleanupStoreW 30 50 (by decide)).2.1.trans
     (by decide),
   (cleanup_old_sessions_spec cleanupStoreW 30 50 (by decide)).1.trans
     (by decide)⟩

/-! ## C5 — transfer_session -/

/-- C5: `transfer_session` creates a session on the target channel
carrying a context identical to the source's context at transfer time,
marks the source row `transferred`, and the source is never again
returned by an active-session lookup by `channel_user_id`. -/
theorem transfer_session_spec (st : SessionStore) (s : ConversationSession)
    (target : String) (tcuid : Option String) (now : Int)
    (ns : ConversationSession) (st' : SessionStore)
    (hmem : s ∈ st.sessions)
    (hfresh : ∀ t ∈ st.sessions, t.id < st.next_id)
    (h : transfer_session st s target tcuid now = .ok (ns, st')) :
    ns.get_context = s.get_context ∧ ns.channel_id = target ∧
    ns.channel_user_id = tcuid ∧ ns.status = "active" ∧
    (∀ t ∈ st'.sessions, t.id = s.id → t.status = "transferred") ∧
    (∃ t ∈ st'.sessions, t.id = s.id ∧ t.status = "transferred") ∧
    (∀ (ch : String) (cuid : Option String) (t : ConversationSession),
      get_session st' ch none cuid = some t → t.id ≠ s.id) := by
  unfold transfer_session at h
  by_cases hk : known_channel target = true
  · rw [if_pos hk] at h
    injection h with h2
    have hns : (create_session st target s.user_id tcuid s.get_context
        now).1 = ns := congrArg Prod.fst h2
    have hstate : st'.sessions =
        (st.sessions ++
          [(create_session st target s.user_id tcuid s.get_context
            now).1]).map
          (fun t => if t.id = s.id then { t with status := "transferred" }
            else t) := by
      have := congrArg Prod.snd h2
      exact (congrArg SessionStore.sessions this).symm
    have hnew_id : (create_session st target s.user_id tcuid s.get_context
        now).1.id = st.next_id := rfl
    have htrans : ∀ t ∈ st'.sessions, t.id = s.id →
        t.status = "transferred" := by
      intro t ht htid
      rw [hstate] at ht
      rcases List.mem_map.mp ht with ⟨u, hu, hmap⟩
      rcases List.mem_append.mp hu with hu | hu
      · by_cases hus : u.id = s.id
        · rw [if_pos hus] at hmap
          rw [← hmap]
        · rw [if_neg hus] at hmap
          exact absurd (hmap ▸ htid) hus
      · rcases List.mem_singleton.mp hu with rfl
        by_cases hus : (create_session st target s.user_id tcuid
            s.get_context now).1.id = s.id
        · exact absurd (hnew_id ▸ hus) (Nat.ne_of_gt (hfresh s hmem))
        · rw [if_neg hus] at hmap
          exact absurd (hmap ▸ htid) hus
    refine ⟨hns ▸ rfl, hns ▸ rfl, hns ▸ rfl, hns ▸ rfl, htrans, ?_, ?_⟩
    · refine ⟨{ s with status := "transferred" }, ?_, rfl, rfl⟩
      rw [hstate]
      refine List.mem_map.mpr ⟨s, List.mem_append_left _ hmem, ?_⟩
      rw [if_pos rfl]
    · intro ch cuid t ht htid
      rcases get_session_cuid_spec ht with ⟨hact, htmem, _, _⟩
      have := htrans t htmem htid
      rw [this] at hact
      exact absurd hact (by decide)
  · rw [if_neg hk] at h
    exact Except.noConfusion h

/-- Witness for C5: the spec scenario — a website session with context
`step=select_visitors, date=2024-12-20` transferred to instagram. -/
theorem transfer_session_spec_witness :
    (sourceSessionW ∈ sourceStoreW.sessions) ∧
    transferredNewW.get_context = sourceSessionW.get_context ∧
    (∀ t ∈ transferredStoreW.sessions, t.id = sourceSessionW.id →
      t.status = "transferred") :=
  ⟨by decide,
   (transfer_session_spec sourceStoreW sourceSessionW "instagram"
      (some "insta-user") 5 transferredNewW transferredStoreW (by decide)
      (by decide) rfl).1,
   (transfer_session_spec sourceStoreW sourceSessionW "instagram"
      (some "insta-user") 5 transferredNewW transferredStoreW (by decide)
      (by decide) rfl).2.2.2.2.1⟩

/-! ## C1 — at most one active session per identity -/

theorem activeCount_create (st : SessionStore) (ch' : String)
    (uid : Option Nat) (cuid' : Option String)
    (ctx : List (String × String)) (now : Int) (ch : String)
    (cuid : Option String) :
    activeCount (create_session st ch' uid cuid' ctx now).2 ch cuid =
      activeCount st ch cuid +
        (if cuid' = cuid ∧ ch' = ch then 1 else 0) := by
  unfold activeCount create_session
  rw [List.filter_append, List.length_append]
  by_cases hc : cuid' = cuid ∧ ch' = ch
  · rw [if_pos hc]
    have : (List.filter (fun s : ConversationSession =>
        decide (s.channel_user_id = cuid ∧
          s.channel_id = ch ∧ s.status = "active"))
        [{ id := st.next_id, session_id := "uuid-" ++ toString st.next_id,
           user_id := uid, channel_id := ch', channel_user_id := cuid',
           status := "active", context := ctx, updated_at := now,
           last_activity := now }]).length = 1 := by
      simp [List.filter, hc.1, hc.2]
    rw [this]
  · rw [if_neg hc]
    have : (List.filter (fun s : ConversationSession =>
        decide (s.channel_user_id = cuid ∧
          s.channel_id = ch ∧ s.status = "active"))
        [{ id := st.next_id, session_id := "uuid-" ++ toString st.next_id,
           user_id := uid, channel_id := ch', channel_user_id := cuid',
           status := "active", context := ctx, updated_at := now,
           last_activity := now }]).length = 0 := by
      have hnot : ¬ (cuid' = cuid ∧ ch' = ch ∧
          ("active" : String) = "active") := by
        intro ⟨h1, h2, _⟩; exact hc ⟨h1, h2⟩
      simp [List.filter, hnot]
      have hb : (decide (cuid' = cuid) && decide (ch' = ch)) = false := by
        rw [← Bool.decide_and]
        exact decide_eq_false hc
      rw [hb]
    rw [this]

/-- When the identity lookup misses, there is no active session at all
for that channel and (truthy) identity. -/
theorem get_session_cuid_none {st : SessionStore} {ch uid : String}
    (huid : uid ≠ "")
    (h : get_session st ch none (some uid) = none) :
    st.sessions.filter (fun s => decide (s.channel_user_id = some uid ∧
      s.channel_id = ch ∧ s.status = "active")) = [] := by
  unfold get_session at h
  rw [if_neg (by simp [strTruthy])] at h
  rw [if_pos (by simp [strTruthy, huid])] at h
  rw [List.head?_eq_none_iff] at h
  exact order_by_activity_desc_eq_nil.mp h

theorem gocStep_preserves_uniqueActive {st : SessionStore} (c : GocCall)
    (h : UniqueActive st) : UniqueActive (gocStep st c) := by
  intro ch uid huid
  unfold gocStep get_or_create_session
  by_cases hk : known_channel c.channel_name = true
  · rw [if_pos hk]
    cases hg : get_session st c.channel_name none c.channel_user_id with
    | none =>
        dsimp only
        rw [activeCount_create]
        by_cases hcond : c.channel_user_id = some uid ∧
            c.channel_name = ch
        · rw [if_pos hcond]
          rcases hcond with ⟨hcu, hcn⟩
          rw [hcu, hcn] at hg
          have hz : activeCount st ch (some uid) = 0 := by
            unfold activeCount
            rw [get_session_cuid_none huid hg]
            rfl
          rw [hz]
        · rw [if_neg hcond]
          exact Nat.le_trans (Nat.le_of_eq (Nat.add_zero _))
            (h ch uid huid)
    | some s0 =>
        have hact := (get_session_cuid_spec hg).1
        dsimp only
        rw [if_neg (by simp [hact])]
        exact h ch uid huid
  · rw [if_neg hk]
    exact h ch uid huid

/-- The empty database trivially satisfies the invariant. -/
theorem uniqueActive_empty : UniqueActive { sessions := [], next_id := 0 } := by
  intro ch uid _
  exact Nat.zero_le 1

theorem foldl_gocStep_preserves (calls : List GocCall) :
    ∀ st : SessionStore, UniqueActive st →
      UniqueActive (calls.foldl gocStep st) := by
  induction calls with
  | nil => exact fun st h => h
  | cons c cs ih =>
      intro st h
      exact ih _ (gocStep_preserves_uniqueActive c h)

/-- C1 (amended): after any sequence of sequential
`get_or_create_session` calls, at most one active session exists per
channel and non-null, non-empty `channel_user_id`. -/
theorem runGoc_unique_active (calls : List GocCall) (ch uid : String)
    (huid : uid ≠ "") :
    activeCount (runGoc calls) ch (some uid) ≤ 1 := by
  unfold runGoc
  exact foldl_gocStep_preserves calls _ uniqueActive_empty ch uid huid

/-- Counterexample to C1 as stated: two sequential calls with a null
`channel_user_id` leave two active sessions for the pair
`(website, None)`. -/
theorem runGoc_null_identity_counterexample :
    activeCount (runGoc [gocNoneCall, gocNoneCall]) "website" none = 2 ∧
    ¬ activeCount (runGoc [gocNoneCall, gocNoneCall]) "website" none ≤ 1 := by
  constructor
  · decide
  · decide

/-- Witness for the amended C1 at a concrete call sequence. -/
theorem runGoc_unique_active_witness :
    (("u" : String) ≠ "") ∧
    activeCount (runGoc [gocUserCall, gocUserCall]) "website"
      (some "u") ≤ 1 :=
  ⟨by decide,
   runGoc_unique_active [gocUserCall, gocUserCall] "website" "u"
     (by decide)⟩

/-! ## C2 — select_date when every slot is full -/

theorem available_slots_for_eq_nil {bookings : List Booking} {d : Int}
    (hfull : ∀ sl ∈ TIME_SLOTS,
      SLOT_CAPACITY sl ≤ booked_sum bookings d sl) :
    available_slots_for bookings d = [] := by
  unfold available_slots_for slots_data_for
  rw [List.filter_eq_nil_iff]
  intro sd hsd
  rcases List.mem_map.mp hsd with ⟨sl, hsl, hmap⟩
  rw [← hmap]
  simp only [decide_eq_true_eq]
  intro hcon
  exact hcon (by simpa [ge_iff_le] using hfull sl hsl)

/-- C2 (amended): when every configured slot on the selected date is
full, the reply carries `step=select_date` with alternate-date
suggestion buttons and no booking is touched — but the stored dialogue
dict has already been advanced to `step='select_time'` before the
fullness check, so the stored state does not remain `select_date`. -/
theorem chat_select_date_all_full (cb? : Option ChatBooking)
    (bookings : List Booking) (next : Nat) (req : ChatReq) (today : Int)
    (hsel : strTruthy (pyOrStr req.date req.booking_data.date) = true)
    (hfull : ∀ sl ∈ TIME_SLOTS,
      SLOT_CAPACITY sl ≤ booked_sum bookings
        (parse_relative_date today
          ((pyOrStr req.date req.booking_data.date).getD "")) sl) :
    chat_select_date cb? bookings next req today =
      { out := { kind := "all_slots_full", resp_step := some "select_date",
                 buttons := [⟨"select_date", "tomorrow"⟩,
                             ⟨"select_date",
                              toString (parse_relative_date today
                                ((pyOrStr req.date
                                  req.booking_data.date).getD "") + 7)⟩,
                             ⟨"start_booking", ""⟩],
                 available := none, success := false, booking_id := none,
                 err := false },
        cb := some { (cb?.getD emptyCB) with
                       date := pyOrStr req.date req.booking_data.date,
                       step := some "select_time" },
        bookings := bookings, next_booking_id := next } := by
  unfold chat_select_date
  rw [if_neg (by simp [hsel])]
  dsimp only
  rw [available_slots_for_eq_nil hfull]
  rfl

/-- Counterexample to C2 as stated: with every slot of the selected
date full, the stored dialogue step after the branch is `select_time`,
not `select_date` (only the reply's step field says `select_date`). -/
theorem chat_select_date_full_stored_step_counterexample :
    (∀ sl ∈ TIME_SLOTS,
      SLOT_CAPACITY sl ≤ booked_sum fullBookings
        (parse_relative_date 100 "today") sl) ∧
    (chat_select_date (some startCB) fullBookings 0 reqSelectDateToday
        100).out.resp_step = some "select_date" ∧
    (chat_select_date (some startCB) fullBookings 0 reqSelectDateToday
        100).cb =
      some { step := some "select_time", date := some "today",
             time_slot := none, visitors := none } ∧
    ¬ ((chat_select_date (some startCB) fullBookings 0 reqSelectDateToday
        100).cb.map ChatBooking.step = some (some "select_date")) := by
  refine ⟨by decide, by decide, by decide, by decide⟩

/-- Witness for the amended C2 at the full-store scenario. -/
theorem chat_select_date_all_full_witness :
    (strTruthy (pyOrStr reqSelectDateToday.date
      reqSelectDateToday.booking_data.date) = true) ∧
    (chat_select_date (some startCB) fullBookings 0 reqSelectDateToday
        100).out.resp_step = some "select_date" ∧
    (chat_select_date (some startCB) fullBookings 0 reqSelectDateToday
        100).cb =
      some { step := some "select_time", date := some "today",
             time_slot := none, visitors := none } := by
  refine ⟨by decide, ?_, ?_⟩
  · rw [chat_select_date_all_full (some startCB) fullBookings 0
      reqSelectDateToday 100 (by decide) (by decide)]
  · rw [chat_select_date_all_full (some startCB) fullBookings 0
      reqSelectDateToday 100 (by decide) (by decide)]
    rfl

/-! ## C3 — the final capacity re-check of confirm_and_pay -/

/-- C3: at `confirm_and_pay`, a booking is created exactly when the
live occupancy plus the requested visitors fits the slot capacity; on
overflow nothing is created, the reply reports the remaining count and
returns the dialogue to `select_time`; on success the `Booking` row is
inserted and the stored dialogue dict is cleared. -/
theorem chat_confirm_and_pay_capacity (stp : Option String) (ds ts : String)
    (v : Int) (u : Nat) (bookings : List Booking) (next : Nat)
    (req : ChatReq) (today td : Int)
    (hbd : req.booking_data = emptyCB)
    (hds : ds ≠ "") (hts : ts ≠ "") (hv : 1 ≤ v)
    (hpd : parse_confirm_date today ds = some td) :
    (SLOT_CAPACITY ts < booked_sum bookings td ts + v →
      chat_confirm_and_pay (some ⟨stp, some ds, some ts, some (.vnum v)⟩)
          (some u) bookings next req today =
        { out := { kind := "capacity_reject",
                   resp_step := some "select_time",
                   buttons := [⟨"select_date", ds⟩, ⟨"start_booking", ""⟩],
                   available := some (max 0 (SLOT_CAPACITY ts -
                     booked_sum bookings td ts)),
                   success := false, booking_id := none, err := false },
          cb := some ⟨stp, some ds, some ts, some (.vnum v)⟩,
          bookings := bookings, next_booking_id := next }) ∧
    (booked_sum bookings td ts + v ≤ SLOT_CAPACITY ts →
      chat_confirm_and_pay (some ⟨stp, some ds, some ts, some (.vnum v)⟩)
          (some u) bookings next req today =
        { out := { kind := if req.payment_type.getD "online" = "cash" then
                       "confirmed_cash"
                     else "created_online",
                   resp_step := none,
                   buttons := if req.payment_type.getD "online" = "cash" then
                       [⟨"pay_online", ""⟩, ⟨"view_bookings", ""⟩]
                     else
                       [⟨"pay_online", ""⟩, ⟨"change_to_cash", ""⟩,
                        ⟨"view_bookings", ""⟩],
                   available := none, success := true,
                   booking_id := some next, err := false },
          cb := none,
          bookings := bookings ++
            [{ id := next, user_id := u, date := td, time_slot := ts,
               visitors := v, amount := v * TICKET_PRICE,
               payment_status :=
                 if req.payment_type.getD "online" = "cash" then
                   "cash_pending"
                 else "pending",
               payment_method :=
                 if req.payment_type.getD "online" = "cash" then some "cash"
                 else none }],
          next_booking_id := next + 1 }) := by
  have hv0 : v ≠ 0 := by omega
  have hred : ∀ P : StepResult → Prop,
      P (chat_confirm_and_pay
          (some ⟨stp, some ds, some ts, some (.vnum v)⟩)
          (some u) bookings next req today) ↔
      P (if SLOT_CAPACITY ts < booked_sum bookings td ts + v then
          { out := { kind := "capacity_reject",
                     resp_step := some "select_time",
                     buttons := [⟨"select_date", ds⟩, ⟨"start_booking", ""⟩],
                     available := some (max 0 (SLOT_CAPACITY ts -
                       booked_sum bookings td ts)),
                     success := false, booking_id := none, err := false },
            cb := some ⟨stp, some ds, some ts, some (.vnum v)⟩,
            bookings := bookings, next_booking_id := next }
        else
          { out := { kind := if req.payment_type.getD "online" = "cash" then
                         "confirmed_cash"
                       else "created_online",
                     resp_step := none,
                     buttons :=
                       if req.payment_type.getD "online" = "cash" then
                         [⟨"pay_online", ""⟩, ⟨"view_bookings", ""⟩]
                       else
                         [⟨"pay_online", ""⟩, ⟨"change_to_cash", ""⟩,
                          ⟨"view_bookings", ""⟩],
                     available := none, success := true,
                     booking_id := some next, err := false },
            cb := none,
            bookings := bookings ++
              [{ id := next, user_id := u, date := td, time_slot := ts,
                 visitors := v, amount := v * TICKET_PRICE,
                 payment_status :=
                   if req.payment_type.getD "online" = "cash" then
                     "cash_pending"
                   else "pending",
                 payment_method :=
                   if req.payment_type.getD "online" = "cash" then
                     some "cash"
                   else none }],
            next_booking_id := next + 1 }) := by
    intro P
    unfold chat_confirm_and_pay
    rw [hbd]
    simp only [bdTruthy, emptyCB, Option.isSome_none, Bool.or_self,
      Bool.false_eq_true, if_false, pyOrStr, pyOrVis, strTruthy,
      visTruthy, visTruthyV, Option.getD_some, false_and, ite_self,
      decide_eq_true_eq, hds, hts, hv0, ne_eq, not_false_eq_true,
      if_true, not_true_eq_false, or_self, visToInt]
    rw [hpd]
  constructor
  · intro hcap
    rw [(hred (fun r => r = _)).mpr (by rw [if_pos hcap])]
  · intro hcap
    rw [(hred (fun r => r = _)).mpr (by rw [if_neg (by omega)])]

/-- Witness for C3: 19 of 20 seats taken, 5 requested — rejected with
1 remaining, step back to `select_time`, no booking row created. -/
theorem chat_confirm_and_pay_capacity_witness :
    (SLOT_CAPACITY "9AM–10AM" <
      booked_sum nearlyFullBookings 100 "9AM–10AM" + 5) ∧
    chat_confirm_and_pay
        (some ⟨some "confirm_booking", some "today", some "9AM–10AM",
          some (.vnum 5)⟩)
        (some 1) nearlyFullBookings 1 reqConfirmCash 100 =
      { out := { kind := "capacity_reject", resp_step := some "select_time",
                 buttons := [⟨"select_date", "today"⟩,
                             ⟨"start_booking", ""⟩],
                 available := some (max 0 (SLOT_CAPACITY "9AM–10AM" -
                   booked_sum nearlyFullBookings 100 "9AM–10AM")),
                 success := false, booking_id := none, err := false },
        cb := some ⟨some "confirm_booking", some "today", some "9AM–10AM",
          some (.vnum 5)⟩,
        bookings := nearlyFullBookings, next_booking_id := 1 } :=
  ⟨by decide,
   (chat_confirm_and_pay_capacity (some "confirm_booking") "today"
      "9AM–10AM" 5 1 nearlyFullBookings 1 reqConfirmCash 100 100 rfl
      (by decide) (by decide) (by decide) rfl).1 (by decide)⟩

/-! ## C9 — the select_visitors range check -/

/-- C9 (amended): at `select_visitors`, a submitted nonzero count
outside `[1,10]` is rejected with a re-prompt and the stored dialogue
dict left unchanged; a count in `[1,10]` is accepted, stored, and the
step advances to `confirm_booking`.  A submitted count of `0` (JSON
number) is falsy in Python, falls through the `or`-chain to the
default `1`, and is therefore accepted — see the counterexample. -/
theorem chat_select_visitors_range (cb : ChatBooking)
    (bookings : List Booking) (next : Nat) (req : ChatReq) (n : Int)
    (hbd : req.booking_data = emptyCB)
    (hvis : req.visitors = some (.vnum n)) :
    (n ≠ 0 → (n < 1 ∨ 10 < n) →
      chat_select_visitors (some cb) bookings next req =
        { out := plainOut "visitors_out_of_range" [], cb := some cb,
          bookings := bookings, next_booking_id := next }) ∧
    (1 ≤ n → n ≤ 10 →
      chat_select_visitors (some cb) bookings next req =
        { out := { kind := "visitors_selected",
                   resp_step := some "confirm_booking",
                   buttons := [⟨"confirm_and_pay", "online"⟩,
                               ⟨"confirm_and_pay", "cash"⟩,
                               ⟨"start_booking", ""⟩],
                   available := none, success := false,
                   booking_id := none, err := false },
          cb := some { cb with visitors := some (.vnum n),
                               step := some "confirm_booking" },
          bookings := bookings, next_booking_id := next }) := by
  constructor
  · intro hn0 hrange
    unfold chat_select_visitors
    rw [hbd, hvis]
    simp only [pyOrVis, visTruthy, visTruthyV, emptyCB,
      decide_eq_true_eq, hn0, ne_eq, not_false_eq_true, if_true,
      visToInt, Option.some_bind]
    rw [if_pos hrange]
  · intro h1 h10
    have hn0 : ¬ n = 0 := by omega
    unfold chat_select_visitors
    rw [hbd, hvis]
    simp only [pyOrVis, visTruthy, visTruthyV, emptyCB,
      decide_eq_true_eq, ne_eq, hn0, not_false_eq_true, if_true,
      visToInt, Option.some_bind]
    rw [if_neg (by omega)]

/-- Counterexample to C9 as stated: the submitted count `0` lies
outside `[1,10]`, yet the branch accepts it (as 1) and advances the
stored step to `confirm_booking` instead of rejecting with the state
unchanged. -/
theorem chat_select_visitors_zero_counterexample :
    ((0 : Int) < 1) ∧
    (chat_select_visitors (some cbAtVisitors) [] 0 reqVisitorsZero).cb =
      some { step := some "confirm_booking", date := some "today",
             time_slot := some "9AM–10AM", visitors := some (.vnum 1) } ∧
    ¬ ((chat_select_visitors (some cbAtVisitors) [] 0 reqVisitorsZero).cb
        = some cbAtVisitors) ∧
    (chat_select_visitors (some cbAtVisitors) [] 0
        reqVisitorsZero).out.kind ≠ "visitors_out_of_range" := by
  exact ⟨by decide, by decide, by decide, by decide⟩

/-- Witness for the amended C9: the count 11 is rejected with the
stored dict unchanged. -/
theorem chat_select_visitors_range_witness :
    chat_select_visitors (some cbAtVisitors) [] 0 reqVisitorsEleven =
      { out := plainOut "visitors_out_of_range" [],
        cb := some cbAtVisitors, bookings := [], next_booking_id := 0 } :=
  (chat_select_visitors_range cbAtVisitors [] 0 reqVisitorsEleven 11 rfl
    rfl).1 (by decide) (by decide)
